import Mathlib

/-!
Verification of the simulated LoRa/FSK radio driver
(`src/radio/radio-simul/radio.c` of helium/LoRaMac-node).

The C driver is embedded shallowly: the global `MockRadio` state becomes an
explicit record threaded through the operations, machine integers become `Nat`
or `Int` (with explicit truncation where the C types can overflow), and the
`double` arithmetic of the time-on-air calculator is modelled by exact rational
arithmetic (every intermediate value in these formulas is far inside the range
where `double` tracks the exact rational result up to the published decimal
constants).  Functions whose bodies live in headers or libraries that are not
part of the repository snapshot (base64.h, parson.h, the SX126x-style enum
headers) are modelled from the specification and marked as such.
-/

namespace RadioSimul

/-! ## Enumerations from the radio headers

The headers defining these enumerations (mock_radio.h / radio.h) are not in
the source snapshot; constructors and numeric values follow the SX126x driver
convention the file was copied from, which the spec confirms (for instance the
LoRa-bandwidth enum base offset of 4 in the symbol-time table lookup). -/

/-- Modem selector, `RadioModems_t` ([0: FSK, 1: LoRa]). -/
inductive RadioModems
  | MODEM_FSK
  | MODEM_LORA
deriving DecidableEq, Repr

/-- Radio state reported by `RadioGetStatus`, `RadioState_t`. -/
inductive RadioState
  | RF_IDLE
  | RF_RX_RUNNING
  | RF_TX_RUNNING
  | RF_CAD
deriving DecidableEq, Repr

/-- Packet type tag, `RadioPacketTypes_t`. -/
inductive RadioPacketTypes
  | PACKET_TYPE_GFSK
  | PACKET_TYPE_LORA
deriving DecidableEq, Repr

/-- Modelled from the spec: FSK CRC mode enumeration (`RadioCrcTypes_t`,
header not in src/).  The spec lists the FSK CRC modes {off, 2-byte CCIT};
the source additionally compares against `RADIO_CRC_2_BYTES`, a distinct
enumerator in the SX126x convention (0x02 versus 0xF2 for CCIT). -/
inductive RadioCrcTypes
  | RADIO_CRC_OFF
  | RADIO_CRC_1_BYTES
  | RADIO_CRC_2_BYTES
  | RADIO_CRC_2_BYTES_CCIT
deriving DecidableEq, Repr

/-- FSK packet length mode, `RadioPacketLengthModes_t`. -/
inductive RadioPacketLengthModes
  | RADIO_PACKET_FIXED_LENGTH
  | RADIO_PACKET_VARIABLE_LENGTH
deriving DecidableEq, Repr

/-- Modelled from the spec: numeric value of the LoRa fixed-header enumerator
`LORA_PACKET_FIXED_LENGTH` (header not in src/).  The LoRa header type is
stored by casting the `fixLen` boolean, so variable = 0 and fixed = 1. -/
def LORA_PACKET_FIXED_LENGTH : ℕ := 1

/-- Modelled from the spec: numeric values of the LoRa bandwidth enumerators
`{LORA_BW_125, LORA_BW_250, LORA_BW_500}` (header not in src/).  The spec
states the symbol-time table index is the bandwidth class after subtracting
the internal enum base offset of 4, so the values are 4, 5, 6. -/
def Bandwidths : List ℕ := [4, 5, 6]

/-! ## Base64 codec

Modelled from the spec (§4.3): base64.h is not in the source snapshot.  The
transform is standard base64: bytes are split in 6-bit groups rendered with
the usual 64-character alphabet, padded with `=` to a multiple of four
characters, and decoding is the exact inverse, failing on malformed input. -/

/-- Modelled from the spec: the standard base64 alphabet. -/
def b64Alphabet : List Char :=
  ['A','B','C','D','E','F','G','H','I','J','K','L','M','N','O','P',
   'Q','R','S','T','U','V','W','X','Y','Z',
   'a','b','c','d','e','f','g','h','i','j','k','l','m','n','o','p',
   'q','r','s','t','u','v','w','x','y','z',
   '0','1','2','3','4','5','6','7','8','9','+','/']

/-- Character for a 6-bit group. -/
def b64Char (n : ℕ) : Char := b64Alphabet.getD n 'A'

/-- Position of a character in the alphabet, scanning from index `i`. -/
def b64IndexAux : List Char → Char → ℕ → Option ℕ
  | [], _, _ => none
  | a :: rest, c, i => if a = c then some i else b64IndexAux rest c (i + 1)

/-- Value of a base64 character, `none` for characters outside the alphabet. -/
def b64Val (c : Char) : Option ℕ := b64IndexAux b64Alphabet c 0

/-- Modelled from the spec: standard base64 encoding of a byte sequence,
padded with `=` to a multiple of four characters. -/
def base64_encode : List ℕ → List Char
  | [] => []
  | [a] => [b64Char (a / 4), b64Char (a % 4 * 16), '=', '=']
  | [a, b] => [b64Char (a / 4), b64Char (a % 4 * 16 + b / 16), b64Char (b % 16 * 4), '=']
  | a :: b :: c :: rest =>
      b64Char (a / 4) :: b64Char (a % 4 * 16 + b / 16) ::
      b64Char (b % 16 * 4 + c / 64) :: b64Char (c % 64) :: base64_encode rest

/-- Modelled from the spec: standard base64 decoding, the exact inverse of
`base64_encode`, failing (`none`) on malformed input. -/
def base64_decode : List Char → Option (List ℕ)
  | [] => some []
  | w :: x :: y :: z :: rest =>
    match b64Val w, b64Val x with
    | some a, some b =>
      if y = '=' ∧ z = '=' ∧ rest = [] then
        some [a * 4 + b / 16]
      else if z = '=' ∧ rest = [] then
        match b64Val y with
        | some c => some [a * 4 + b / 16, b % 16 * 16 + c / 4]
        | none => none
      else
        match b64Val y, b64Val z, base64_decode rest with
        | some c, some d, some tl =>
            some ((a * 4 + b / 16) :: (b % 16 * 16 + c / 4) :: (c % 4 * 64 + d) :: tl)
        | _, _, _ => none
    | _, _ => none
  | _ => none

/-! ## JSON values and the parson accessors

Modelled from the spec (§4.3, §6): parson.h is not in the source snapshot.
A parsed document is a structural JSON value; `RadioRx` receives the result
of `json_parse_string` on the input line (`none` when the document fails to
parse).  The accessor functions mirror parson's `json_value_get_object`,
`json_object_get_object` and `json_object_get_string`: field lookup returns
the first field with the given name, and the typed getters return null/NULL
when the field is absent or has a different type. -/

/-- Structural JSON value (modelled from the spec, parson.h not in src/). -/
inductive Json
  | jnull
  | jbool (b : Bool)
  | jnum (q : ℚ)
  | jstr (s : List Char)
  | jarr (xs : List Json)
  | jobj (fields : List (List Char × Json))

/-- First field of an object with the given name (parson lookup order). -/
def jsonLookup (fields : List (List Char × Json)) (key : List Char) : Option Json :=
  List.lookup key fields

/-- Object content of a JSON value, NULL for a non-object. -/
def json_value_get_object : Json → Option (List (List Char × Json))
  | Json.jobj fields => some fields
  | _ => none

/-- Sub-object of an object under a name; NULL-tolerant in the object
argument, NULL when the field is absent or not an object. -/
def json_object_get_object (o : Option (List (List Char × Json))) (key : List Char) :
    Option (List (List Char × Json)) :=
  match o with
  | none => none
  | some fields =>
    match jsonLookup fields key with
    | some (Json.jobj f2) => some f2
    | _ => none

/-- String field of an object under a name; NULL when absent or non-string. -/
def json_object_get_string (fields : List (List Char × Json)) (key : List Char) :
    Option (List Char) :=
  match jsonLookup fields key with
  | some (Json.jstr s) => some s
  | _ => none

/-- Key "txpk" of the downlink command object. -/
def txpkKey : List Char := ['t','x','p','k']

/-- Key "data" of the base64 payload field. -/
def dataKey : List Char := ['d','a','t','a']

/-! ## The radio state (`MockRadio_t` and the file-scope globals) -/

/-- GFSK variant of `ModulationParams.Params`. -/
structure GfskModulationParams where
  BitRate : ℕ
  Fdev : ℕ
  ModulationShaping : ℕ
  Bandwidth : ℕ
deriving DecidableEq, Repr

/-- LoRa variant of `ModulationParams.Params`.  The enum-typed fields are
kept numerically, exactly as the C code produces them by casting the raw
configuration arguments. -/
structure LoRaModulationParams where
  SpreadingFactor : ℕ
  Bandwidth : ℕ
  CodingRate : ℕ
  LowDatarateOptimize : ℕ
deriving DecidableEq, Repr

/-- GFSK variant of `PacketParams.Params`.  `PreambleLength` is a 16-bit
field holding the preamble length in bits. -/
structure GfskPacketParams where
  PreambleLength : ℕ
  PreambleMinDetect : ℕ
  SyncWordLength : ℕ
  AddrComp : ℕ
  HeaderType : RadioPacketLengthModes
  CrcLength : RadioCrcTypes
  DcFree : ℕ
deriving DecidableEq, Repr

/-- LoRa variant of `PacketParams.Params`.  `HeaderType`, `CrcMode` and
`InvertIQ` are enum-typed in C but written by casting booleans, so they are
kept numerically (variable/off/normal = 0, fixed/on/inverted = 1). -/
structure LoRaPacketParams where
  PreambleLength : ℕ
  HeaderType : ℕ
  PayloadLength : ℕ
  CrcMode : ℕ
  InvertIQ : ℕ
deriving DecidableEq, Repr

/-- The simulated radio state: the global `MockRadio` plus the other
file-scope globals the driver reads and writes (`frequency`,
`MaxPayloadLength`, `TxTimeout`, `IrqFired`).  The C `Params` unions are
modelled with both variants present; no driver operation reads a variant it
did not itself populate. -/
structure MockRadioState where
  ModPacketType : RadioPacketTypes
  Gfsk : GfskModulationParams
  LoRa : LoRaModulationParams
  PktPacketType : RadioPacketTypes
  GfskPkt : GfskPacketParams
  LoRaPkt : LoRaPacketParams
  frequency : ℚ
  MaxPayloadLength : ℕ
  TxTimeout : ℕ
  IrqFired : Bool
deriving DecidableEq, Repr

/-- Zero-initialised globals at process start; `MaxPayloadLength` is the
only one with a non-zero static initialiser (0xFF). -/
def initState : MockRadioState where
  ModPacketType := RadioPacketTypes.PACKET_TYPE_GFSK
  Gfsk := { BitRate := 0, Fdev := 0, ModulationShaping := 0, Bandwidth := 0 }
  LoRa := { SpreadingFactor := 0, Bandwidth := 0, CodingRate := 0, LowDatarateOptimize := 0 }
  PktPacketType := RadioPacketTypes.PACKET_TYPE_GFSK
  GfskPkt := { PreambleLength := 0, PreambleMinDetect := 0, SyncWordLength := 0,
               AddrComp := 0, HeaderType := RadioPacketLengthModes.RADIO_PACKET_FIXED_LENGTH,
               CrcLength := RadioCrcTypes.RADIO_CRC_1_BYTES, DcFree := 0 }
  LoRaPkt := { PreambleLength := 0, HeaderType := 0, PayloadLength := 0, CrcMode := 0,
               InvertIQ := 0 }
  frequency := 0
  MaxPayloadLength := 255
  TxTimeout := 0
  IrqFired := false

/-! ## Configuration calls -/

/-- Arguments of `RadioSetTxConfig`, in the order of the C signature. -/
structure TxConfigArgs where
  modem : RadioModems
  power : ℤ
  fdev : ℕ
  bandwidth : ℕ
  datarate : ℕ
  coderate : ℕ
  preambleLen : ℕ
  fixLen : Bool
  crcOn : Bool
  freqHopOn : Bool
  hopPeriod : ℕ
  iqInverted : Bool
  timeout : ℕ
deriving DecidableEq, Repr

/-- Arguments of `RadioSetRxConfig`, in the order of the C signature. -/
structure RxConfigArgs where
  modem : RadioModems
  bandwidth : ℕ
  datarate : ℕ
  coderate : ℕ
  bandwidthAfc : ℕ
  preambleLen : ℕ
  symbTimeout : ℕ
  fixLen : Bool
  payloadLen : ℕ
  crcOn : Bool
  freqHopOn : Bool
  hopPeriod : ℕ
  iqInverted : Bool
  rxContinuous : Bool
deriving DecidableEq, Repr

/-- Fixed constant `MOD_SHAPING_G_BT_1` stored for the FSK shaping; its
numeric value is never read back by the driver. -/
def MOD_SHAPING_G_BT_1 : ℕ := 9

/-- Fixed constant `RADIO_PREAMBLE_DETECTOR_08_BITS`; never read back. -/
def RADIO_PREAMBLE_DETECTOR_08_BITS : ℕ := 4

/-- Fixed constant `RADIO_ADDRESSCOMP_FILT_OFF`; never read back. -/
def RADIO_ADDRESSCOMP_FILT_OFF : ℕ := 0

/-- Fixed constant `RADIO_DC_FREEWHITENING`; never read back. -/
def RADIO_DC_FREEWHITENING : ℕ := 1

/-- `RadioSetTxConfig`: populates the modulation and packet parameters for
the selected modem and stores the Tx timeout.  The FSK preamble length is
stored in bits (`preambleLen << 3`, truncated to the 16-bit field); the LoRa
branch derives the low-data-rate-optimize flag, floors the preamble length
at 12 symbols for SF5/SF6, and casts the boolean arguments into the numeric
enum fields. -/
def RadioSetTxConfig (a : TxConfigArgs) (s : MockRadioState) : MockRadioState :=
  match a.modem with
  | RadioModems.MODEM_FSK =>
    { s with
      ModPacketType := RadioPacketTypes.PACKET_TYPE_GFSK
      Gfsk := { BitRate := a.datarate
                ModulationShaping := MOD_SHAPING_G_BT_1
                Bandwidth := a.bandwidth
                Fdev := a.fdev }
      PktPacketType := RadioPacketTypes.PACKET_TYPE_GFSK
      GfskPkt := { PreambleLength := a.preambleLen * 8 % 65536
                   PreambleMinDetect := RADIO_PREAMBLE_DETECTOR_08_BITS
                   SyncWordLength := 3 * 8
                   AddrComp := RADIO_ADDRESSCOMP_FILT_OFF
                   HeaderType := if a.fixLen then
                       RadioPacketLengthModes.RADIO_PACKET_FIXED_LENGTH
                     else RadioPacketLengthModes.RADIO_PACKET_VARIABLE_LENGTH
                   CrcLength := if a.crcOn then RadioCrcTypes.RADIO_CRC_2_BYTES_CCIT
                     else RadioCrcTypes.RADIO_CRC_OFF
                   DcFree := RADIO_DC_FREEWHITENING }
      TxTimeout := a.timeout }
  | RadioModems.MODEM_LORA =>
    { s with
      ModPacketType := RadioPacketTypes.PACKET_TYPE_LORA
      LoRa := { SpreadingFactor := a.datarate
                Bandwidth := Bandwidths.getD a.bandwidth 0
                CodingRate := a.coderate
                LowDatarateOptimize :=
                  if (a.bandwidth = 0 ∧ (a.datarate = 11 ∨ a.datarate = 12)) ∨
                     (a.bandwidth = 1 ∧ a.datarate = 12) then 1 else 0 }
      PktPacketType := RadioPacketTypes.PACKET_TYPE_LORA
      LoRaPkt := { PreambleLength :=
                     if a.datarate = 5 ∨ a.datarate = 6 then
                       if a.preambleLen < 12 then 12 else a.preambleLen
                     else a.preambleLen
                   HeaderType := if a.fixLen then 1 else 0
                   PayloadLength := s.MaxPayloadLength
                   CrcMode := if a.crcOn then 1 else 0
                   InvertIQ := if a.iqInverted then 1 else 0 }
      TxTimeout := a.timeout }

/-- `RadioSetRxConfig`: the body in the source is empty (a TODO stub), so
the call stores nothing and the state is returned unchanged. -/
def RadioSetRxConfig (_ : RxConfigArgs) (s : MockRadioState) : MockRadioState := s

/-- `RadioGetStatus`: the source returns the constant `RF_IDLE` without
reading any state. -/
def RadioGetStatus (_ : MockRadioState) : RadioState := RadioState.RF_IDLE

/-- `RadioSetChannel`: stores the frequency in MHz. -/
def RadioSetChannel (freq : ℕ) (s : MockRadioState) : MockRadioState :=
  { s with frequency := (freq : ℚ) / 1000000 }

/-- `RadioSetModem`: the body in the source is empty. -/
def RadioSetModem (_ : RadioModems) (s : MockRadioState) : MockRadioState := s

/-- `RadioInit`: clears the IRQ flag (the event-sink pointer is modelled by
the event traces the operations return). -/
def RadioInit (s : MockRadioState) : MockRadioState := { s with IrqFired := false }

/-! ## Time on air -/

/-- The C `rint` under the default rounding mode: round to nearest, ties to
even. -/
def rint (q : ℚ) : ℤ :=
  if q - ⌊q⌋ < 1/2 then ⌊q⌋
  else if 1/2 < q - ⌊q⌋ then ⌊q⌋ + 1
  else if ⌊q⌋ % 2 = 0 then ⌊q⌋ else ⌊q⌋ + 1

/-- The `RadioLoRaSymbTime` table: symbol time in ms, rows indexed by the
bandwidth class (125/250/500 kHz), columns by `12 − SF` for SF12 down to
SF7.  The decimal `double` literals of the source are exact rationals. -/
def RadioLoRaSymbTime : List (List ℚ) :=
  [[32768/1000, 16384/1000, 8192/1000, 4096/1000, 2048/1000, 1024/1000],
   [16384/1000, 8192/1000, 4096/1000, 2048/1000, 1024/1000, 512/1000],
   [8192/1000, 4096/1000, 2048/1000, 1024/1000, 512/1000, 256/1000]]

/-- Total lookup into `RadioLoRaSymbTime` (the C array access; indices are
in range whenever the stored configuration is a supported one). -/
def symbTime (i j : ℕ) : ℚ := (RadioLoRaSymbTime.getD i []).getD j 0

/-- `RadioTimeOnAir`: the airtime calculator of the source, over exact
rationals.  The FSK branch adds the stored preamble length (which
`RadioSetTxConfig` stored in bits), the sync word length shifted back to
bytes, one length byte for variable headers, the payload, and two bytes when
the stored CRC length equals `RADIO_CRC_2_BYTES`, scales by the bit rate and
rounds with `rint`.  The LoRa branch follows the source expression for the
symbol-time table lookup, preamble time, payload symbol count and the final
`floor(... + 0.999)`; the literals 4.25 and 0.999 are the exact rationals
17/4 and 999/1000. -/
def RadioTimeOnAir (s : MockRadioState) (modem : RadioModems) (pktLen : ℕ) : ℤ :=
  match modem with
  | RadioModems.MODEM_FSK =>
    rint ((8 * ((s.GfskPkt.PreambleLength : ℚ) +
        ((s.GfskPkt.SyncWordLength / 8 : ℕ) : ℚ) +
        (if s.GfskPkt.HeaderType = RadioPacketLengthModes.RADIO_PACKET_FIXED_LENGTH
          then 0 else 1) +
        (pktLen : ℚ) +
        (if s.GfskPkt.CrcLength = RadioCrcTypes.RADIO_CRC_2_BYTES then 2 else 0)) /
        (s.Gfsk.BitRate : ℚ)) * 1000)
  | RadioModems.MODEM_LORA =>
    let ts : ℚ := symbTime (s.LoRa.Bandwidth - 4) (12 - s.LoRa.SpreadingFactor)
    let tPreamble : ℚ := ((s.LoRaPkt.PreambleLength : ℚ) + 17/4) * ts
    let num : ℤ := 8 * (pktLen : ℤ) - 4 * (s.LoRa.SpreadingFactor : ℤ) + 28 +
        16 * (s.LoRaPkt.CrcMode : ℤ) -
        (if s.LoRaPkt.HeaderType = LORA_PACKET_FIXED_LENGTH then 20 else 0)
    let den : ℤ := 4 * ((s.LoRa.SpreadingFactor : ℤ) -
        (if 0 < s.LoRa.LowDatarateOptimize then 2 else 0))
    let tmp : ℚ := (⌈(num : ℚ) / (den : ℚ)⌉ : ℚ) * ((s.LoRa.CodingRate % 4 + 4 : ℕ) : ℚ)
    let nPayload : ℚ := 8 + (if 0 < tmp then tmp else 0)
    let tPayload : ℚ := nPayload * ts
    ⌊tPreamble + tPayload + 999/1000⌋

/-- Reference FSK airtime as the spec states it: round( 1000 × 8 ×
( preambleLen + 3 + (1 if variable header) + payloadLength + (2 if 2-byte
CRC) ) / bitRate ) with round-half-away-from-zero rounding (for the
positive values involved, `round` is exactly that). -/
def fskTimeOnAirRef (bitRate preambleLen : ℕ) (fixedHeader crc2Byte : Bool)
    (pktLen : ℕ) : ℤ :=
  round ((1000 * 8 * ((preambleLen : ℚ) + 3 + (if fixedHeader then 0 else 1) +
    (pktLen : ℚ) + (if crc2Byte then 2 else 0))) / (bitRate : ℚ))

/-- Reference LoRa airtime computation as the spec states it (§4.2): symbol
time from the 3×6 table indexed [bandwidthClass][12−SF], preamble time
(preambleLength + 4.25)·ts, payload symbol count
8 + max(0, ceil((8·len − 4·SF + 28 + 16·crc − 20·fixed) / (4·(SF −
2·ldro))) · (cr % 4 + 4)), and total floor(tPreamble + tPayload + 0.999). -/
def loRaTimeOnAirRef (sf bwClass cr : ℕ) (crcOn fixedHeader ldro : Bool)
    (preambleLength pktLen : ℕ) : ℤ :=
  let ts : ℚ := symbTime bwClass (12 - sf)
  let tPreamble : ℚ := ((preambleLength : ℚ) + 17/4) * ts
  let num : ℤ := 8 * (pktLen : ℤ) - 4 * (sf : ℤ) + 28 +
      16 * (if crcOn then 1 else 0) - (if fixedHeader then 20 else 0)
  let den : ℤ := 4 * ((sf : ℤ) - 2 * (if ldro then 1 else 0))
  let tmp : ℚ := (⌈(num : ℚ) / (den : ℚ)⌉ : ℚ) * ((cr % 4 + 4 : ℕ) : ℚ)
  let n : ℚ := 8 + max tmp 0
  ⌊tPreamble + n * ts + 999/1000⌋

/-! ## FSK bandwidth table -/

/-- The `FskBandwidths` table of the source: bandwidth thresholds paired
with register values, last entry marked invalid in the source. -/
def FskBandwidths : List (ℕ × ℕ) :=
  [(4800, 0x1F), (5800, 0x17), (7300, 0x0F), (9700, 0x1E), (11700, 0x16),
   (14600, 0x0E), (19500, 0x1D), (23400, 0x15), (29300, 0x0D), (39000, 0x1C),
   (46900, 0x14), (58600, 0x0C), (78200, 0x1B), (93800, 0x13), (117300, 0x0B),
   (156200, 0x1A), (187200, 0x12), (234300, 0x0A), (312000, 0x19),
   (373600, 0x11), (467000, 0x09), (500000, 0x00)]

/-- `RadioGetFskBandwidthRegValue`: the body in the source is empty (a
non-void function with no return statement), so its result is undefined. -/
def RadioGetFskBandwidthRegValue (_ : ℕ) : Option ℕ := none

/-- Modelled from the spec: the clamping selection rule the spec assigns to
FSK bandwidth configuration — the smallest of the 21 tabulated bandwidths
(4800 Hz up to 467000 Hz) that is ≥ the requested value, else the largest. -/
def fskBandwidthClamp (requested : ℕ) : ℕ :=
  match (FskBandwidths.take 21).find? (fun e => requested ≤ e.1) with
  | some e => e.1
  | none => 467000

/-! ## Send and receive -/

/-- Event-sink callbacks (`RadioEvents_t`); an operation's observable
callback activity is the list of events it fires, in order. -/
inductive RadioEvent
  | TxDone
  | TxTimeout
  | RxDone (payload : List ℕ) (size : ℕ) (rssi : ℤ) (snr : ℤ)
  | RxTimeout
  | RxError
  | CadDone (activityDetected : Bool)
deriving DecidableEq, Repr

/-- One uplink report line emitted by `RadioSend` (§6 envelope). -/
structure RxpkEnvelope where
  time : List Char
  tmst : ℕ
  chan : ℕ
  rfch : ℕ
  freq : ℚ
  stat : ℕ
  modu : List Char
  datr : List Char
  codr : List Char
  rssi : ℤ
  lsnr : ℚ
  size : ℕ
  data : List Char
deriving DecidableEq, Repr

/-- `RadioSend`: base64-encodes the buffer, emits exactly one uplink report
line carrying the current frequency, the payload size and the encoded data
(every other field a fixed placeholder), and fires `TxDone` synchronously
before returning.  The wall-clock readings (`time`, `gettimeofday`) are
inputs of the model; `tmst` is the epoch milliseconds value truncated to the
C unsigned int. -/
def RadioSend (s : MockRadioState) (timeStr : List Char) (millis : ℕ)
    (buffer : List ℕ) : List RxpkEnvelope × List RadioEvent :=
  let data := base64_encode buffer
  ([{ time := timeStr
      tmst := millis % 2 ^ 32
      chan := 2
      rfch := 0
      freq := s.frequency
      stat := 1
      modu := ['L','O','R','A']
      datr := ['S','F','7','B','W','1','2','5']
      codr := ['4','/','6']
      rssi := -35
      lsnr := 51/10
      size := buffer.length
      data := data }],
   [RadioEvent.TxDone])

/-- `RadioRx`: dispatches on the parsed input line.  A parse failure or an
absent/non-object "txpk" field fires `RxTimeout`; a "txpk" object with a
string "data" field is base64-decoded into the 512-byte receive buffer and
`RxDone` fires with the decoded bytes, their length, rssi −110 and snr 5.
A missing "data" string (`strlen(NULL)`), a malformed base64 payload, or a
decoded payload overflowing the 512-byte buffer is undefined behaviour in
the source, modelled as `none`. -/
def RadioRx (parsed : Option Json) : Option (List RadioEvent) :=
  match parsed with
  | none => some [RadioEvent.RxTimeout]
  | some root =>
    match json_object_get_object (json_value_get_object root) txpkKey with
    | none => some [RadioEvent.RxTimeout]
    | some txpk =>
      match json_object_get_string txpk dataKey with
      | none => none
      | some str =>
        match base64_decode str with
        | none => none
        | some bytes =>
          if bytes.length ≤ 512 then
            some [RadioEvent.RxDone bytes bytes.length (-110) 5]
          else none

/-! ## Driver operation sequences -/

/-- A driver operation, as dispatched through the `Radio` operation table.
Operations that need external inputs (wall clock, input line) carry them. -/
inductive DriverOp
  | init
  | setModem (modem : RadioModems)
  | setChannel (freq : ℕ)
  | setRxConfig (args : RxConfigArgs)
  | setTxConfig (args : TxConfigArgs)
  | send (buffer : List ℕ)
  | rx (input : Option Json)
  | sleep
  | standby

/-- State transition of one driver operation.  `RadioSend` and `RadioRx`
write no driver state; `RadioSleep` and `RadioStandby` have empty bodies. -/
def stepOp (s : MockRadioState) : DriverOp → MockRadioState
  | DriverOp.init => RadioInit s
  | DriverOp.setModem m => RadioSetModem m s
  | DriverOp.setChannel f => RadioSetChannel f s
  | DriverOp.setRxConfig a => RadioSetRxConfig a s
  | DriverOp.setTxConfig a => RadioSetTxConfig a s
  | DriverOp.send _ => s
  | DriverOp.rx _ => s
  | DriverOp.sleep => s
  | DriverOp.standby => s

/-- Run a sequence of driver operations from a state. -/
def runOps (s : MockRadioState) (ops : List DriverOp) : MockRadioState :=
  ops.foldl stepOp s

/-! ## Concrete input documents used in the analysis -/

/-- The downlink line `{"txpk":{"data":"SGVsbG8="}}` after parsing. -/
def helloLine : Json :=
  Json.jobj [(txpkKey, Json.jobj [(dataKey,
    Json.jstr ['S','G','V','s','b','G','8','='])])]

/-- A well-formed downlink line whose base64 payload decodes to 513 bytes,
one more than the 512-byte receive buffer holds: 684 characters `A`. -/
def overflowLine : Json :=
  Json.jobj [(txpkKey, Json.jobj [(dataKey, Json.jstr (List.replicate 684 'A'))])]

/-- The non-downlink line `{"foo":1}` after parsing. -/
def fooLine : Json := Json.jobj [(['f','o','o'], Json.jnum 1)]

/-! ## Base64 lemmas -/

lemma b64Val_b64Char : ∀ n < 64, b64Val (b64Char n) = some n := by decide

lemma b64Char_ne_pad (n : ℕ) : b64Char n ≠ '=' := by
  by_cases h : n < 64
  · revert n h
    decide
  · unfold b64Char
    rw [List.getD_eq_default]
    · decide
    · have hlen : b64Alphabet.length = 64 := by decide
      omega

/-- Decoding inverts encoding on byte sequences. -/
theorem base64_decode_encode (bs : List ℕ) (hb : ∀ b ∈ bs, b < 256) :
    base64_decode (base64_encode bs) = some bs := by
  induction bs using base64_encode.induct with
  | case1 =>
      simp [base64_encode, base64_decode]
  | case2 a =>
      have ha : a < 256 := hb a (by simp)
      have h1 : b64Val (b64Char (a / 4)) = some (a / 4) := b64Val_b64Char _ (by omega)
      have h2 : b64Val (b64Char (a % 4 * 16)) = some (a % 4 * 16) := b64Val_b64Char _ (by omega)
      simp [base64_encode, base64_decode, h1, h2]
      omega
  | case3 a b =>
      have ha : a < 256 := hb a (by simp)
      have hbb : b < 256 := hb b (by simp)
      have h1 : b64Val (b64Char (a / 4)) = some (a / 4) := b64Val_b64Char _ (by omega)
      have h2 : b64Val (b64Char (a % 4 * 16 + b / 16)) = some (a % 4 * 16 + b / 16) :=
        b64Val_b64Char _ (by omega)
      have h3 : b64Val (b64Char (b % 16 * 4)) = some (b % 16 * 4) := b64Val_b64Char _ (by omega)
      simp [base64_encode, base64_decode, h1, h2, h3, b64Char_ne_pad]
      omega
  | case4 a b c rest ih =>
      have ha : a < 256 := hb a (by simp)
      have hbb : b < 256 := hb b (by simp)
      have hc : c < 256 := hb c (by simp)
      have h1 : b64Val (b64Char (a / 4)) = some (a / 4) := b64Val_b64Char _ (by omega)
      have h2 : b64Val (b64Char (a % 4 * 16 + b / 16)) = some (a % 4 * 16 + b / 16) :=
        b64Val_b64Char _ (by omega)
      have h3 : b64Val (b64Char (b % 16 * 4 + c / 64)) = some (b % 16 * 4 + c / 64) :=
        b64Val_b64Char _ (by omega)
      have h4 : b64Val (b64Char (c % 64)) = some (c % 64) := b64Val_b64Char _ (by omega)
      have hih : base64_decode (base64_encode rest) = some rest := by
        apply ih
        intro x hx
        exact hb x (by simp [hx])
      simp [base64_encode, base64_decode, h1, h2, h3, h4, hih, b64Char_ne_pad]
      omega

/-- Decoding a run of `4k` characters `A` yields `3k` zero bytes. -/
lemma base64_decode_replicate_A (k : ℕ) :
    base64_decode (List.replicate (4 * k) 'A') = some (List.replicate (3 * k) 0) := by
  induction k with
  | zero => simp [base64_decode]
  | succ n ih =>
      have h4 : 4 * (n + 1) = 4 + 4 * n := by ring
      have h3 : 3 * (n + 1) = 3 + 3 * n := by ring
      have hA : b64Val 'A' = some 0 := rfl
      rw [h4, h3, List.replicate_add, List.replicate_add]
      simp [base64_decode, hA, ih, List.replicate_succ]

/-! ## Arithmetic helper lemmas -/

lemma symbTime_nonneg (i j : ℕ) : 0 ≤ symbTime i j := by
  unfold symbTime RadioLoRaSymbTime
  rcases i with _ | _ | _ | i <;>
    rcases j with _ | _ | _ | _ | _ | _ | j <;>
      simp [List.getD] <;> norm_num

lemma ite_pos_eq_max (a : ℚ) : (if 0 < a then a else 0) = max a 0 := by
  rcases le_or_lt a 0 with h | h
  · simp [not_lt.mpr h, max_eq_right h]
  · simp [h, max_eq_left h.le]

lemma ldro_ite (P : Prop) [Decidable P] :
    (if 0 < (if P then (1 : ℕ) else 0) then (2 : ℤ) else 0) =
      2 * (if decide P then (1 : ℤ) else 0) := by
  by_cases hP : P <;> simp [hP]

lemma hdr20_ite (fix : Bool) :
    (if (if fix then (1 : ℕ) else 0) = LORA_PACKET_FIXED_LENGTH then (20 : ℤ) else 0) =
      if fix then 20 else 0 := by
  cases fix <;> simp [LORA_PACKET_FIXED_LENGTH]

lemma ite_cast_one (c : Prop) [Decidable c] :
    (((if c then (1 : ℕ) else 0) : ℕ) : ℤ) = if c then 1 else 0 := by
  split <;> simp

/-! ## Claim theorems -/

/-- C10: after every sequence of driver operations from the initial state,
`RadioGetStatus` reports `RF_IDLE` — the reported status is a constant and
never reflects an ongoing transmission or reception. -/
theorem radioGetStatus_always_idle (ops : List DriverOp) :
    RadioGetStatus (runOps initState ops) = RadioState.RF_IDLE := rfl

/-- C1: the claim fails on the code.  With the FSK configuration of the
spec's own example (bitRate 50000, preamble 5 bytes, variable header, no
CRC) and a 10-byte payload, the claim demands round(1000·8·19/50000) = 3 ms
(second conjunct, the spec's reference formula), but the source computes 9:
`RadioSetTxConfig` stores the preamble length in bits (40) and
`RadioTimeOnAir` adds it to the byte counts without converting back, so the
sum is 54 bytes instead of 19 (additionally, the stored CRC length
`RADIO_CRC_2_BYTES_CCIT` never equals the `RADIO_CRC_2_BYTES` the formula
tests, so a 2-byte CRC would never be counted). -/
theorem fsk_timeOnAir_bits_bug :
    RadioTimeOnAir (RadioSetTxConfig
      { modem := RadioModems.MODEM_FSK, power := 14, fdev := 25000, bandwidth := 50000,
        datarate := 50000, coderate := 0, preambleLen := 5, fixLen := false,
        crcOn := false, freqHopOn := false, hopPeriod := 0, iqInverted := false,
        timeout := 3000 } initState) RadioModems.MODEM_FSK 10 = 9 ∧
    fskTimeOnAirRef 50000 5 false false 10 = 3 := by
  constructor
  · norm_num [RadioTimeOnAir, RadioSetTxConfig, initState, rint,
      eq_false (by decide : ¬(RadioPacketLengthModes.RADIO_PACKET_VARIABLE_LENGTH =
        RadioPacketLengthModes.RADIO_PACKET_FIXED_LENGTH)),
      eq_false (by decide : ¬(RadioCrcTypes.RADIO_CRC_OFF = RadioCrcTypes.RADIO_CRC_2_BYTES))]
  · norm_num [fskTimeOnAirRef, round_eq]

/-- C3: the claim fails on the code for `SetRxConfig`.  After
`RadioSetTxConfig(LoRa, 125 kHz, SF12)` the low-data-rate-optimize flag is 1;
a subsequent `RadioSetRxConfig(LoRa, 500 kHz, SF7)` must, per the claim,
recompute it to 0, but the source's `RadioSetRxConfig` body is an empty TODO
stub that stores nothing, so the stale value 1 survives. -/
theorem ldro_stale_after_setRxConfig :
    (RadioSetRxConfig
      { modem := RadioModems.MODEM_LORA, bandwidth := 2, datarate := 7, coderate := 1,
        bandwidthAfc := 0, preambleLen := 8, symbTimeout := 5, fixLen := false,
        payloadLen := 0, crcOn := true, freqHopOn := false, hopPeriod := 0,
        iqInverted := false, rxContinuous := false }
      (RadioSetTxConfig
        { modem := RadioModems.MODEM_LORA, power := 14, fdev := 0, bandwidth := 0,
          datarate := 12, coderate := 1, preambleLen := 8, fixLen := false,
          crcOn := true, freqHopOn := false, hopPeriod := 0, iqInverted := false,
          timeout := 3000 } initState)).LoRa.LowDatarateOptimize = 1 := by
  decide

/-- C4: the claim fails on the code for `SetRxConfig`.  After
`RadioSetTxConfig(LoRa, SF7, preamble 8)`, a `RadioSetRxConfig(LoRa, SF5,
preamble 5)` must, per the claim, store the floored preamble length 12, but
the source's `RadioSetRxConfig` is an empty TODO stub, so the stale value 8
from the previous call survives. -/
theorem preambleFloor_stale_after_setRxConfig :
    (RadioSetRxConfig
      { modem := RadioModems.MODEM_LORA, bandwidth := 0, datarate := 5, coderate := 1,
        bandwidthAfc := 0, preambleLen := 5, symbTimeout := 5, fixLen := false,
        payloadLen := 0, crcOn := true, freqHopOn := false, hopPeriod := 0,
        iqInverted := false, rxContinuous := false }
      (RadioSetTxConfig
        { modem := RadioModems.MODEM_LORA, power := 14, fdev := 0, bandwidth := 0,
          datarate := 7, coderate := 1, preambleLen := 8, fixLen := false,
          crcOn := true, freqHopOn := false, hopPeriod := 0, iqInverted := false,
          timeout := 3000 } initState)).LoRaPkt.PreambleLength = 8 := by
  decide

/-- C9: the claim fails on the code.  `RadioSetTxConfig(FSK, bandwidth 5000)`
stores the requested 5000 Hz unchanged in the modulation parameters, while
the claim demands the table-clamped 5800 Hz (second conjunct, the spec's
selection rule over the bandwidth table): the source's
`RadioGetFskBandwidthRegValue` has an empty body and is never called. -/
theorem fsk_bandwidth_unclamped_bug :
    (RadioSetTxConfig
      { modem := RadioModems.MODEM_FSK, power := 14, fdev := 25000, bandwidth := 5000,
        datarate := 50000, coderate := 0, preambleLen := 5, fixLen := false,
        crcOn := true, freqHopOn := false, hopPeriod := 0, iqInverted := false,
        timeout := 3000 } initState).Gfsk.Bandwidth = 5000 ∧
    fskBandwidthClamp 5000 = 5800 ∧
    RadioGetFskBandwidthRegValue 5000 = none := by
  refine ⟨rfl, by decide, rfl⟩

/-- C5: a single `RadioSend` call fires exactly one `TxDone` callback,
synchronously in its own trace, and emits exactly one uplink report line
whose "data" field base64-decodes back to the buffer and whose "size" field
equals the buffer size. -/
theorem radioSend_spec (s : MockRadioState) (timeStr : List Char) (millis : ℕ)
    (buffer : List ℕ) (hb : ∀ b ∈ buffer, b < 256) (_hlen : buffer.length ≤ 255) :
    (RadioSend s timeStr millis buffer).2 = [RadioEvent.TxDone] ∧
    ∃ env : RxpkEnvelope, (RadioSend s timeStr millis buffer).1 = [env] ∧
      base64_decode env.data = some buffer ∧ env.size = buffer.length := by
  exact ⟨rfl, _, rfl, base64_decode_encode buffer hb, rfl⟩

theorem radioSend_spec_witness :
    (RadioSend initState [] 0 [72, 101, 108, 108, 111]).2 = [RadioEvent.TxDone] ∧
    ∃ env : RxpkEnvelope,
      (RadioSend initState [] 0 [72, 101, 108, 108, 111]).1 = [env] ∧
      base64_decode env.data = some [72, 101, 108, 108, 111] ∧
      env.size = [72, 101, 108, 108, 111].length :=
  radioSend_spec initState [] 0 [72, 101, 108, 108, 111] (by decide) (by decide)

/-- C7: for every input line that fails to parse as JSON (modelled as a
`none` parse result) and every line parsing to an object without a "txpk"
field, `RadioRx` fires exactly one `RxTimeout` and no `RxDone`. -/
theorem radioRx_timeout_on_missing_txpk (input : Option Json)
    (h : input = none ∨ ∃ fields, input = some (Json.jobj fields) ∧
      jsonLookup fields txpkKey = none) :
    RadioRx input = some [RadioEvent.RxTimeout] := by
  rcases h with rfl | ⟨fields, rfl, hf⟩
  · rfl
  · simp [RadioRx, json_value_get_object, json_object_get_object, hf]

theorem radioRx_timeout_on_missing_txpk_witness :
    RadioRx (some fooLine) = some [RadioEvent.RxTimeout] :=
  radioRx_timeout_on_missing_txpk (some fooLine)
    (Or.inr ⟨[(['f','o','o'], Json.jnum 1)], rfl, rfl⟩)

/-- C6 counterexample: the claim as stated fails at the well-formed downlink
line whose base64 "data" decodes to 513 bytes.  The source decodes into a
fixed 512-byte buffer, so this input overflows it (undefined behaviour,
`none` in the model) instead of delivering the claimed `RxDone` with the 513
decoded bytes. -/
theorem radioRx_overflow_counterexample :
    RadioRx (some overflowLine) ≠
      some [RadioEvent.RxDone (List.replicate 513 0) 513 (-110) 5] := by
  have hdec : base64_decode (List.replicate 684 'A') = some (List.replicate 513 0) := by
    have h := base64_decode_replicate_A 171
    norm_num at h
    exact h
  have hget : json_object_get_object (json_value_get_object overflowLine) txpkKey =
      some [(dataKey, Json.jstr (List.replicate 684 'A'))] := rfl
  have hstr : json_object_get_string [(dataKey, Json.jstr (List.replicate 684 'A'))]
      dataKey = some (List.replicate 684 'A') := rfl
  have hrx : RadioRx (some overflowLine) = none := by
    simp only [RadioRx, hget, hstr, hdec, List.length_replicate]
    rw [if_neg (by omega)]
  rw [hrx]
  exact fun hcontra => Option.noConfusion hcontra

/-- C6 (amended): for every input line parsing to an object with a "txpk"
sub-object carrying a base64 "data" string whose decoded payload fits the
512-byte receive buffer, `RadioRx` fires exactly one `RxDone` with the
decoded bytes, their length, rssi −110 and snr 5, and no `RxTimeout`. -/
theorem radioRx_rxdone_bounded (root : Json) (txpk : List (List Char × Json))
    (str : List Char) (bytes : List ℕ)
    (h1 : json_object_get_object (json_value_get_object root) txpkKey = some txpk)
    (h2 : json_object_get_string txpk dataKey = some str)
    (h3 : base64_decode str = some bytes)
    (h4 : bytes.length ≤ 512) :
    RadioRx (some root) = some [RadioEvent.RxDone bytes bytes.length (-110) 5] := by
  simp [RadioRx, h1, h2, h3, h4]

theorem radioRx_rxdone_bounded_witness :
    RadioRx (some helloLine) =
      some [RadioEvent.RxDone [72, 101, 108, 108, 111] [72, 101, 108, 108, 111].length
        (-110) 5] :=
  radioRx_rxdone_bounded helloLine
    [(dataKey, Json.jstr ['S','G','V','s','b','G','8','='])]
    ['S','G','V','s','b','G','8','='] [72, 101, 108, 108, 111]
    rfl rfl (by decide) (by decide)

/-- C2: for every LoRa configuration established by `RadioSetTxConfig` with
spreading factor 7–12 and bandwidth index 0–2, `RadioTimeOnAir` equals the
spec's reference computation applied to the configured spreading factor,
bandwidth class, coding rate, CRC and header flags, the derived
low-data-rate-optimize flag and the stored preamble length, with the same
order of operations and intermediate rounding. -/
theorem lora_timeOnAir_matches_ref (s : MockRadioState) (a : TxConfigArgs)
    (hm : a.modem = RadioModems.MODEM_LORA)
    (hbw : a.bandwidth ≤ 2) (hsf1 : 7 ≤ a.datarate) (hsf2 : a.datarate ≤ 12)
    (pktLen : ℕ) :
    RadioTimeOnAir (RadioSetTxConfig a s) RadioModems.MODEM_LORA pktLen =
      loRaTimeOnAirRef a.datarate a.bandwidth a.coderate a.crcOn a.fixLen
        (decide ((a.bandwidth = 0 ∧ (a.datarate = 11 ∨ a.datarate = 12)) ∨
          (a.bandwidth = 1 ∧ a.datarate = 12)))
        a.preambleLen pktLen := by
  obtain ⟨m, p, fd, bw, dr, cr, pre, fix, crc, fh, hp, iq, tmo⟩ := a
  dsimp only at hm hbw hsf1 hsf2 ⊢
  subst hm
  have hgetD : Bandwidths.getD bw 0 - 4 = bw := by
    interval_cases bw <;> rfl
  have hpre : ¬(dr = 5 ∨ dr = 6) := by omega
  simp only [RadioSetTxConfig, RadioTimeOnAir, loRaTimeOnAirRef, hgetD, if_neg hpre,
    ldro_ite, hdr20_ite, ite_cast_one, ite_pos_eq_max]

theorem lora_timeOnAir_matches_ref_witness :
    RadioTimeOnAir (RadioSetTxConfig
      { modem := RadioModems.MODEM_LORA, power := 14, fdev := 0, bandwidth := 0,
        datarate := 7, coderate := 1, preambleLen := 8, fixLen := false,
        crcOn := true, freqHopOn := false, hopPeriod := 0, iqInverted := false,
        timeout := 3000 } initState) RadioModems.MODEM_LORA 13 =
      loRaTimeOnAirRef 7 0 1 true false false 8 13 :=
  lora_timeOnAir_matches_ref initState
    { modem := RadioModems.MODEM_LORA, power := 14, fdev := 0, bandwidth := 0,
      datarate := 7, coderate := 1, preambleLen := 8, fixLen := false,
      crcOn := true, freqHopOn := false, hopPeriod := 0, iqInverted := false,
      timeout := 3000 } rfl (by decide) (by decide) (by decide) 13

/-- C8: for every stored LoRa configuration with spreading factor 7–12 and a
supported bandwidth (125/250/500 kHz), `RadioTimeOnAir` is monotonically
non-decreasing in the payload length, and deterministic — as a pure function
of the stored configuration, repeated evaluation at the same payload length
is identical. -/
theorem lora_timeOnAir_monotone_deterministic (s : MockRadioState) (len1 len2 : ℕ)
    (hsf1 : 7 ≤ s.LoRa.SpreadingFactor) (_hsf2 : s.LoRa.SpreadingFactor ≤ 12)
    (_hbw : s.LoRa.Bandwidth = 4 ∨ s.LoRa.Bandwidth = 5 ∨ s.LoRa.Bandwidth = 6)
    (hlen : len1 ≤ len2) :
    RadioTimeOnAir s RadioModems.MODEM_LORA len1 ≤
      RadioTimeOnAir s RadioModems.MODEM_LORA len2 ∧
    RadioTimeOnAir s RadioModems.MODEM_LORA len1 =
      RadioTimeOnAir s RadioModems.MODEM_LORA len1 := by
  refine ⟨?_, rfl⟩
  simp only [RadioTimeOnAir]
  have hts : (0:ℚ) ≤ symbTime (s.LoRa.Bandwidth - 4) (12 - s.LoRa.SpreadingFactor) :=
    symbTime_nonneg _ _
  have hden : (0:ℤ) < 4 * ((s.LoRa.SpreadingFactor : ℤ) -
      (if 0 < s.LoRa.LowDatarateOptimize then 2 else 0)) := by
    split_ifs <;> omega
  apply Int.floor_le_floor
  apply add_le_add_right
  apply add_le_add_left
  apply mul_le_mul_of_nonneg_right _ hts
  apply add_le_add_left
  rw [ite_pos_eq_max, ite_pos_eq_max]
  apply max_le_max _ le_rfl
  apply mul_le_mul_of_nonneg_right _ (by positivity)
  rw [Int.cast_le]
  apply Int.ceil_le_ceil
  rw [div_le_div_iff_of_pos_right (by exact_mod_cast hden)]
  have : (8 * (len1:ℤ) - 4 * (s.LoRa.SpreadingFactor:ℤ) + 28 +
      16 * (s.LoRaPkt.CrcMode:ℤ) -
      (if s.LoRaPkt.HeaderType = LORA_PACKET_FIXED_LENGTH then 20 else 0)) ≤
    (8 * (len2:ℤ) - 4 * (s.LoRa.SpreadingFactor:ℤ) + 28 +
      16 * (s.LoRaPkt.CrcMode:ℤ) -
      (if s.LoRaPkt.HeaderType = LORA_PACKET_FIXED_LENGTH then 20 else 0)) := by
    split_ifs <;> omega
  exact_mod_cast this

theorem lora_timeOnAir_monotone_deterministic_witness :
    RadioTimeOnAir (RadioSetTxConfig
      { modem := RadioModems.MODEM_LORA, power := 14, fdev := 0, bandwidth := 0,
        datarate := 7, coderate := 1, preambleLen := 8, fixLen := false,
        crcOn := true, freqHopOn := false, hopPeriod := 0, iqInverted := false,
        timeout := 3000 } initState) RadioModems.MODEM_LORA 10 ≤
      RadioTimeOnAir (RadioSetTxConfig
        { modem := RadioModems.MODEM_LORA, power := 14, fdev := 0, bandwidth := 0,
          datarate := 7, coderate := 1, preambleLen := 8, fixLen := false,
          crcOn := true, freqHopOn := false, hopPeriod := 0, iqInverted := false,
          timeout := 3000 } initState) RadioModems.MODEM_LORA 20 ∧
    RadioTimeOnAir (RadioSetTxConfig
      { modem := RadioModems.MODEM_LORA, power := 14, fdev := 0, bandwidth := 0,
        datarate := 7, coderate := 1, preambleLen := 8, fixLen := false,
        crcOn := true, freqHopOn := false, hopPeriod := 0, iqInverted := false,
        timeout := 3000 } initState) RadioModems.MODEM_LORA 10 =
      RadioTimeOnAir (RadioSetTxConfig
        { modem := RadioModems.MODEM_LORA, power := 14, fdev := 0, bandwidth := 0,
          datarate := 7, coderate := 1, preambleLen := 8, fixLen := false,
          crcOn := true, freqHopOn := false, hopPeriod := 0, iqInverted := false,
          timeout := 3000 } initState) RadioModems.MODEM_LORA 10 :=
  lora_timeOnAir_monotone_deterministic _ 10 20 (by decide) (by decide)
    (Or.inl (by decide)) (by decide)

end RadioSimul
